import Mathlib

/-!
Verification of the KubeForge provisioning engine.

This file is a shallow embedding of the Go sources of KubeForge:

* `internal/provision/kubeadm.go` — the kubeadm provisioner: the
  `kubeadm init` output parsers (`extractJoinCommand`,
  `extractCertificateKey`), `InstallCNI`, and the spec validation
  (`ClusterSpec.Validate`, `HostSpec.Validate`).
* the API layer (cluster handler) — `CreateCluster` and the background
  task `provisionCluster`, together with its helpers `logEvent` and
  `logError`.
* the persistence records (`db` package) — `Cluster`, `Node`, `Event`,
  `Job`, and the JSON field tags that decide which fields appear in
  serialized API views.
* the WebSocket handler (`HandleWebSocket`) — the history-replay query
  (last 50 events ordered by timestamp descending, written in reverse).

Pure Go functions become Lean functions; Go strings are handled as
`List Char` internally (with `String` at the boundaries) so that every
definition reduces in the kernel.  The stateful background task becomes
a function producing the list of store writes (`Action`) it performs,
with the outcome of each remote step supplied by an environment record.
Machine integers the claims touch (ports, progress) stay in `Nat`; no
overflow is reachable in the modelled code paths.  A Go panic is
modelled by `Option.none`.
-/

namespace KubeForge

/-! ### Models of Go `strings` functions

The parsers in `kubeadm.go` use `strings.Split`, `strings.Contains`,
`strings.TrimSpace`, `strings.HasPrefix`, `strings.TrimPrefix` and
`strings.Fields`.  They are modelled here on `List Char` by structural
recursion.  All inputs in scope are ASCII, so Go's Unicode white-space
class is the six ASCII white-space characters. -/

/-- Go `unicode.IsSpace` restricted to ASCII: `'\t'`, `'\n'`, `'\v'`,
`'\f'`, `'\r'`, `' '`. -/
def isGoSpace (c : Char) : Bool :=
  c = ' ' || c = '\t' || c = '\n' || c = '\x0b' || c = '\x0c' || c = '\r'

/-- If `pre` is a prefix of `s`, return the remainder of `s` after `pre`.
`(dropPre? pre s).isSome` is Go `strings.HasPrefix s pre`, and
`(dropPre? pre s).getD s` is Go `strings.TrimPrefix s pre`. -/
def dropPre? : List Char → List Char → Option (List Char)
  | [], s => some s
  | _ :: _, [] => none
  | p :: ps, c :: cs => if p = c then dropPre? ps cs else none

/-- Go `strings.Contains s sub`: some suffix of `s` starts with `sub`. -/
def goContains (sub : List Char) : List Char → Bool
  | [] => (dropPre? sub []).isSome
  | c :: cs => (dropPre? sub (c :: cs)).isSome || goContains sub cs

/-- Fuelled worker for `goSplit`.  Each step either consumes one
occurrence of the (non-empty) separator or one character, so fuel
`s.length + 1` always suffices. -/
def goSplitAux (sep : List Char) : Nat → List Char → List (List Char)
  | 0, s => [s]
  | fuel + 1, s =>
    match dropPre? sep s with
    | some rest => [] :: goSplitAux sep fuel rest
    | none =>
      match s with
      | [] => [[]]
      | c :: cs =>
        match goSplitAux sep fuel cs with
        | [] => [[c]]
        | q :: qs => (c :: q) :: qs

/-- Go `strings.Split s sep` for a non-empty separator: the parts of `s`
between leftmost non-overlapping occurrences of `sep`. -/
def goSplit (s sep : List Char) : List (List Char) :=
  goSplitAux sep (s.length + 1) s

/-- Split at every character satisfying `p` (keeping empty parts).
`splitWhen (· = '\n')` is Go `strings.Split s "\n"`. -/
def splitWhen (p : Char → Bool) : List Char → List (List Char)
  | [] => [[]]
  | c :: cs =>
    let r := splitWhen p cs
    if p c then [] :: r
    else
      match r with
      | [] => [[c]]
      | q :: qs => (c :: q) :: qs

/-- Go `strings.TrimSpace`: drop white space from both ends. -/
def goTrim (s : List Char) : List Char :=
  ((s.dropWhile isGoSpace).reverse.dropWhile isGoSpace).reverse

/-- Go `strings.HasPrefix s pre`. -/
def goHasPre (pre s : List Char) : Bool :=
  (dropPre? pre s).isSome

/-- Go `strings.Fields`: the maximal runs of non-white-space characters. -/
def goFields (s : List Char) : List (List Char) :=
  (splitWhen isGoSpace s).filter (fun p => p ≠ [])

/-- The lines of a Go string: `strings.Split(output, "\n")`. -/
def goLines (output : String) : List (List Char) :=
  splitWhen (fun c => c = '\n') output.toList

/-! ### The `kubeadm init` output parsers (kubeadm.go:428-462) -/

/-- Model of `extractJoinCommand`'s inner loop (kubeadm.go:435-442):
starting from the already-trimmed join line `acc`, consume up to 4
following lines (Go: `j := i+1; j < len(lines) && j < i+5`), appending
each trimmed continuation line that is non-empty and starts with `--` or
`\` (with a leading `\` removed by `strings.TrimPrefix(nextLine, "\\")`),
stopping at the first line that does not match. -/
def joinContinuation : Nat → List (List Char) → List Char → List Char
  | 0, _, acc => acc
  | _ + 1, [], acc => acc
  | fuel + 1, l :: ls, acc =>
    let nextLine := goTrim l
    if !nextLine.isEmpty && (goHasPre "--".toList nextLine || goHasPre "\\".toList nextLine)
    then joinContinuation fuel ls
      (acc ++ " ".toList ++ ((dropPre? "\\".toList nextLine).getD nextLine))
    else acc

/-- Model of `extractJoinCommand` (kubeadm.go:428-447) on the list of
lines: find the first line containing `kubeadm join`, merge in its
continuation lines, and trim; `""` when no line matches. -/
def extractJoinCommandFrom : List (List Char) → List Char
  | [] => []
  | line :: rest =>
    if goContains "kubeadm join".toList line
    then goTrim (joinContinuation 4 rest (goTrim line))
    else extractJoinCommandFrom rest

/-- Model of `extractJoinCommand` (kubeadm.go:428-447). -/
def extractJoinCommand (output : String) : String :=
  ⟨extractJoinCommandFrom (goLines output)⟩

/-- Model of `extractCertificateKey` (kubeadm.go:449-462) on the list of
lines.  For the first line containing `--certificate-key`, Go takes
`parts := strings.Split(line, "--certificate-key")`, trims `parts[1]`,
and returns `strings.Fields(key)[0]`.  When `strings.Fields(key)` is
empty that index is out of range and the Go program panics; the panic is
modelled by `none`.  When no line matches, Go returns `""`. -/
def extractCertificateKeyFrom : List (List Char) → Option String
  | [] => some ""
  | line :: rest =>
    if goContains "--certificate-key".toList line then
      let parts := goSplit line "--certificate-key".toList
      if h : 1 < parts.length then
        match goFields (goTrim (parts.get ⟨1, h⟩)) with
        | [] => none
        | k :: _ => some ⟨k⟩
      else extractCertificateKeyFrom rest
    else extractCertificateKeyFrom rest

/-- Model of `extractCertificateKey` (kubeadm.go:449-462); `none` marks
the out-of-range panic. -/
def extractCertificateKey (output : String) : Option String :=
  extractCertificateKeyFrom (goLines output)

/-! ### Cluster and host specifications (kubeadm.go types + Validate)

`HostSpec.Labels`/`Taints` and `ClusterSpec.LoadBalancerIP`/
`CertificateKey` are never read by the modelled code and are omitted.
Go methods with pointer receivers mutate their receiver and return an
error; they are modelled as functions returning the receiver after the
call paired with the returned error (`none` = `nil`). -/

structure HostSpec where
  hostname : String
  address : String
  user : String
  sshKey : String
  sshKeyPath : String
  port : Nat
  role : String
  deriving Repr, DecidableEq

structure ClusterSpec where
  name : String
  controlPlanes : List HostSpec
  workers : List HostSpec
  k8sVersion : String
  podNetworkCIDR : String
  serviceCIDR : String
  cni : String
  containerRuntime : String
  apiServerEndpoint : String
  deriving Repr, DecidableEq

/-- Model of `HostSpec.Validate` (kubeadm.go:579-596): reject an empty
address; default empty `user` to `root` and zero `port` to 22; reject a
host with neither inline key material nor a key file path; default an
empty `hostname` to the address.  The defaults mutate the receiver; the
pair carries the receiver after the call. -/
def HostSpec.validate (hs : HostSpec) : HostSpec × Option String :=
  if hs.address = "" then (hs, some "invalid spec: host address is required")
  else
    let hs1 := if hs.user = "" then { hs with user := "root" } else hs
    let hs2 := if hs1.port = 0 then { hs1 with port := 22 } else hs1
    if hs2.sshKey = "" ∧ hs2.sshKeyPath = "" then
      (hs2, some ("invalid spec: SSH key or key path is required for host " ++ hs2.address))
    else
      let hs3 := if hs2.hostname = "" then { hs2 with hostname := hs2.address } else hs2
      (hs3, none)

/-- The string default applied by each `if cs.X == "" { cs.X = d }` block
of `ClusterSpec.Validate`. -/
def setIfEmpty (s d : String) : String :=
  if s = "" then d else s

/-- Model of the host loop of `ClusterSpec.Validate` (kubeadm.go:569-573):
Go iterates `for _, host := range append(cs.ControlPlanes, cs.Workers...)`,
so `host` is a copy of the list element; the normalization performed by
`host.Validate()` mutates only that copy and is discarded — the loop
observes nothing but the error. -/
def validateHosts : List HostSpec → Option String
  | [] => none
  | h :: t =>
    match (HostSpec.validate h).2 with
    | some e => some e
    | none => validateHosts t

/-- The default-setting block of `ClusterSpec.Validate`
(kubeadm.go:551-566).  The five sequential Go `if` blocks each read and
write a distinct field, so together they are one record update. -/
def applyDefaults (cs : ClusterSpec) : ClusterSpec :=
  { cs with
    k8sVersion := setIfEmpty cs.k8sVersion "1.28.0",
    podNetworkCIDR := setIfEmpty cs.podNetworkCIDR "10.244.0.0/16",
    serviceCIDR := setIfEmpty cs.serviceCIDR "10.96.0.0/12",
    cni := setIfEmpty cs.cni "calico",
    containerRuntime := setIfEmpty cs.containerRuntime "containerd" }

/-- Model of `ClusterSpec.Validate` (kubeadm.go:543-576): reject an empty
name or an empty control-plane list, fill the five string defaults, then
run `HostSpec.Validate` on a copy of each host.  The pair carries the
receiver after the call. -/
def ClusterSpec.validate (cs : ClusterSpec) : ClusterSpec × Option String :=
  if cs.name = "" then (cs, some "invalid spec: cluster name is required")
  else if cs.controlPlanes = [] then
    (cs, some "invalid spec: at least one control plane is required")
  else
    match validateHosts ((applyDefaults cs).controlPlanes ++ (applyDefaults cs).workers) with
    | some e => (applyDefaults cs, some e)
    | none => (applyDefaults cs, none)

/-! ### The cluster handler and the background provisioning task

`CreateCluster` (part_003:227-338) persists the Cluster (`pending`), the
Nodes (`provisioning`), and a Job (`pending`, progress 0), then spawns
`provisionCluster` (part_003:341-429).  The store writes of one request
are modelled as a list of `Action`s; the outcome of each remote step
(each call into the provisioner) is supplied by a `ProvisionEnv`, `none`
meaning the step returned `nil` and `some e` that it returned an error
whose `Error()` text is `e`. -/

/-- Request body of `POST /api/clusters` (part_003:162-172). -/
structure CreateClusterRequest where
  name : String
  k8sVersion : String
  podNetworkCIDR : String
  serviceCIDR : String
  cni : String
  containerRuntime : String
  apiServerEndpoint : String
  controlPlanes : List HostSpec
  workers : List HostSpec
  deriving Repr

/-- One store write performed by the handler or the provisioning task.
`updateJob` is vocabulary only: the source contains no statement that
updates a Job after its creation, so no modelled function ever emits it;
it exists so that claims about Job updates can be stated and refuted. -/
inductive Action where
  | createCluster (status : String)
  | createNode (role status : String)
  | createJob (status : String) (progress : Nat)
  | updateJob (status : String) (progress : Nat)
  | setStatus (status : String)
  | event (level host step message : String)
  | saveSecrets
  deriving Repr, DecidableEq

/-- Model of `logError` (part_003:523-526): record an `error`-level Event
with `host=localhost`, `step=error`, message `context + ": " + err`, and
set the cluster status to `failed`. -/
def logError (message errText : String) : List Action :=
  [Action.event "error" "localhost" "error" (message ++ ": " ++ errText),
   Action.setStatus "failed"]

/-- The `ClusterSpec` that `provisionCluster` builds from the request
(part_003:355-365). -/
def specOfRequest (req : CreateClusterRequest) : ClusterSpec :=
  { name := req.name, controlPlanes := req.controlPlanes, workers := req.workers,
    k8sVersion := req.k8sVersion, podNetworkCIDR := req.podNetworkCIDR,
    serviceCIDR := req.serviceCIDR, cni := req.cni,
    containerRuntime := req.containerRuntime,
    apiServerEndpoint := req.apiServerEndpoint }

/-- Outcomes of the remote steps of one provisioning run. -/
structure ProvisionEnv where
  provisionerErr : Option String
  prepareErr : Option String
  bootstrapErr : Option String
  cniErr : Option String
  joinCPErr : HostSpec → Option String
  joinWorkerErr : HostSpec → Option String

/-- Model of the two join loops of `provisionCluster` (part_003:406-424):
per host, an `info` event with step `join`, then on failure `logError`
and continue with the remaining hosts. -/
def joinLoop (outcome : HostSpec → Option String) (msg failCtx : String) :
    List HostSpec → List Action
  | [] => []
  | h :: t =>
    (Action.event "info" h.address "join" msg ::
      match outcome h with
      | some e => logError failCtx e
      | none => []) ++ joinLoop outcome msg failCtx t

/-- Model of `provisionCluster` (part_003:341-429).  The `[]` case of the
control-plane match is unreachable: validation only succeeds on a
non-empty control-plane list (Go would panic indexing
`spec.ControlPlanes[0]`). -/
def provisionCluster (env : ProvisionEnv) (req : CreateClusterRequest) : List Action :=
  Action.setStatus "provisioning" ::
  match env.provisionerErr with
  | some e => logError "Failed to get provisioner" e
  | none =>
    match (specOfRequest req).validate with
    | (_, some e) => logError "Invalid cluster spec" e
    | (spec, none) =>
      Action.event "info" "localhost" "prepare" "Preparing hosts" ::
      match env.prepareErr with
      | some e => logError "Failed to prepare hosts" e
      | none =>
        match spec.controlPlanes with
        | [] => []
        | cp0 :: cps =>
          Action.event "info" cp0.address "bootstrap" "Bootstrapping control plane" ::
          match env.bootstrapErr with
          | some e => logError "Failed to bootstrap control plane" e
          | none =>
            Action.saveSecrets ::
            Action.event "info" cp0.address "cni" "Installing CNI" ::
            ((match env.cniErr with
              | some e => logError "Failed to install CNI" e
              | none => []) ++
             joinLoop env.joinCPErr "Joining control plane" "Failed to join control plane" cps ++
             joinLoop env.joinWorkerErr "Joining worker" "Failed to join worker" spec.workers ++
             [Action.setStatus "ready",
              Action.event "info" "localhost" "complete" "Cluster provisioned successfully"])

/-- The records `CreateCluster` persists once its request checks pass
(part_003:244-330): the Cluster with status `pending`, one Node per host
with status `provisioning`, and the provisioning Job with status
`pending` and progress 0. -/
def createRecords (req : CreateClusterRequest) : List Action :=
  Action.createCluster "pending" ::
  (req.controlPlanes.map fun _ => Action.createNode "control-plane" "provisioning") ++
  (req.workers.map fun _ => Action.createNode "worker" "provisioning") ++
  [Action.createJob "pending" 0]

/-- All store writes caused by one `POST /api/clusters` whose background
task runs to completion: nothing when the request is rejected with 400
(empty name or no control planes, part_003:235-242), otherwise the
created records followed by the writes of `provisionCluster`. -/
def requestTrace (env : ProvisionEnv) (req : CreateClusterRequest) : List Action :=
  if req.name = "" ∨ req.controlPlanes = [] then []
  else createRecords req ++ provisionCluster env req

/-- The successive values written to `Cluster.status`, starting with the
status the record is created with. -/
def statusWrites : List Action → List String
  | [] => []
  | Action.createCluster s :: t => s :: statusWrites t
  | Action.setStatus s :: t => s :: statusWrites t
  | _ :: t => statusWrites t

/-- Whether an action writes the Job record (creation or update). -/
def isJobWrite : Action → Bool
  | Action.createJob _ _ => true
  | Action.updateJob _ _ => true
  | _ => false

/-! ### InstallCNI (kubeadm.go:276-321) -/

/-- One event emitted through the provisioner's event callback
(`emitEvent`, kubeadm.go:422-426). -/
structure EmittedEvent where
  level : String
  host : String
  step : String
  message : String
  deriving Repr, DecidableEq

/-- The manifest-selection switch of `InstallCNI` (kubeadm.go:280-292):
a pinned URL for calico, flannel and weave; an error for cilium and for
unknown CNIs. -/
def cniManifest : String → Except String String
  | "calico" =>
    Except.ok "https://raw.githubusercontent.com/projectcalico/calico/v3.26.1/manifests/calico.yaml"
  | "flannel" =>
    Except.ok "https://github.com/flannel-io/flannel/releases/latest/download/kube-flannel.yml"
  | "weave" =>
    Except.ok "https://github.com/weaveworks/weave/releases/download/v2.8.1/weave-daemonset-k8s.yaml"
  | "cilium" => Except.error "cilium installation requires Helm or CLI, not yet implemented"
  | cni => Except.error ("unsupported CNI: " ++ cni)

/-- Outcomes of the remote commands `InstallCNI` runs: the SSH
connection, `kubectl apply` (error text combines captured stderr and the
wrapped error), and the 300-second `kubectl wait`. -/
structure CNIEnv where
  connectErr : Option String
  applyErr : Option String
  applyOut : String
  waitErr : Option String

/-- Model of `InstallCNI` (kubeadm.go:276-321): emit the `install-cni`
info event, select the manifest, connect, apply (failure emits an
`error` event and is returned as an error), then wait for pod readiness
(failure emits only a `warn` event and the function still returns
`nil`).  Result: the emitted events and the returned error. -/
def installCNI (env : CNIEnv) (cni : String) (cp : HostSpec) :
    List EmittedEvent × Option String :=
  let ev0 : EmittedEvent := ⟨"info", cp.address, "install-cni", "Installing " ++ cni ++ " CNI"⟩
  match cniManifest cni with
  | Except.error e => ([ev0], some e)
  | Except.ok _ =>
    match env.connectErr with
    | some e => ([ev0], some ("failed to connect to control plane: " ++ e))
    | none =>
      match env.applyErr with
      | some stderr =>
        ([ev0, ⟨"error", cp.address, "install-cni", "Failed to apply CNI: " ++ stderr⟩],
         some ("failed to apply CNI manifest: " ++ stderr))
      | none =>
        let ev1 : EmittedEvent :=
          ⟨"info", cp.address, "install-cni", "CNI applied successfully: " ++ env.applyOut⟩
        match env.waitErr with
        | some _ =>
          ([ev0, ev1, ⟨"warn", cp.address, "install-cni", "CNI pods may not be fully ready yet"⟩],
           none)
        | none =>
          ([ev0, ev1, ⟨"info", cp.address, "install-cni", "CNI pods are ready"⟩], none)

/-! ### Persistence records and their JSON views (part_005:84-214)

Timestamps are modelled as `Nat`, `[]byte` as `Option (List Nat)` (`nil`
is `none`), and `*time.Time` as `Option Nat`.  The JSON encoding of a
record is modelled as the ordered list of key/value pairs
`encoding/json` produces from the struct tags: a field tagged
`json:"-"` is never emitted, a field tagged `omitempty` is emitted only
when its value is non-zero. -/

structure Node where
  id : Nat
  clusterID : Nat
  hostname : String
  address : String
  user : String
  sshKeyPath : String
  port : Nat
  role : String
  status : String
  k8sVersion : String
  containerRuntime : String
  labels : String
  taints : String
  joinedAt : Option Nat
  createdAt : Nat
  updatedAt : Nat
  deletedAt : Option Nat
  deriving Repr, DecidableEq

structure Event where
  id : Nat
  clusterID : Nat
  timestamp : Nat
  level : String
  host : String
  step : String
  message : String
  output : String
  createdAt : Nat
  deriving Repr, DecidableEq

structure Cluster where
  id : Nat
  name : String
  k8sVersion : String
  podNetworkCIDR : String
  serviceCIDR : String
  cni : String
  containerRuntime : String
  apiServerEndpoint : String
  loadBalancerIP : String
  provider : String
  status : String
  kubeconfig : Option (List Nat)
  joinCommand : String
  certificateKey : String
  createdAt : Nat
  updatedAt : Nat
  deletedAt : Option Nat
  nodes : List Node
  events : List Event
  deriving Repr, DecidableEq

/-- A JSON value, as far as the encoded records need. -/
inductive JVal where
  | str : String → JVal
  | num : Nat → JVal
  | obj : List (String × JVal) → JVal
  | arr : List JVal → JVal

/-- A string field tagged `omitempty`: emitted only when non-empty. -/
def omitemptyStr (key s : String) : List (String × JVal) :=
  if s = "" then [] else [(key, JVal.str s)]

/-- An optional numeric field tagged `omitempty`: emitted only when set. -/
def omitemptyNum (key : String) : Option Nat → List (String × JVal)
  | none => []
  | some n => [(key, JVal.num n)]

/-- JSON view of a `Node` (part_005:118-136); `DeletedAt` is `json:"-"`. -/
def nodeJSON (n : Node) : List (String × JVal) :=
  [("id", JVal.num n.id), ("cluster_id", JVal.num n.clusterID),
   ("hostname", JVal.str n.hostname), ("address", JVal.str n.address),
   ("user", JVal.str n.user)] ++
  omitemptyStr "ssh_key_path" n.sshKeyPath ++
  [("port", JVal.num n.port), ("role", JVal.str n.role), ("status", JVal.str n.status),
   ("k8s_version", JVal.str n.k8sVersion),
   ("container_runtime", JVal.str n.containerRuntime)] ++
  omitemptyStr "labels" n.labels ++
  omitemptyStr "taints" n.taints ++
  omitemptyNum "joined_at" n.joinedAt ++
  [("created_at", JVal.num n.createdAt), ("updated_at", JVal.num n.updatedAt)]

/-- JSON view of an `Event` (part_005:139-149). -/
def eventJSON (e : Event) : List (String × JVal) :=
  [("id", JVal.num e.id), ("cluster_id", JVal.num e.clusterID),
   ("timestamp", JVal.num e.timestamp), ("level", JVal.str e.level),
   ("host", JVal.str e.host), ("step", JVal.str e.step),
   ("message", JVal.str e.message)] ++
  omitemptyStr "output" e.output ++
  [("created_at", JVal.num e.createdAt)]

/-- JSON view of a `Cluster` (part_005:93-115).  `Kubeconfig`,
`JoinCommand`, `CertificateKey` and `DeletedAt` carry the tag `json:"-"`
and are never emitted; `LoadBalancerIP`, `Nodes` and `Events` are
`omitempty`. -/
def clusterJSON (c : Cluster) : List (String × JVal) :=
  [("id", JVal.num c.id), ("name", JVal.str c.name),
   ("k8s_version", JVal.str c.k8sVersion),
   ("pod_network_cidr", JVal.str c.podNetworkCIDR),
   ("service_cidr", JVal.str c.serviceCIDR), ("cni", JVal.str c.cni),
   ("container_runtime", JVal.str c.containerRuntime),
   ("api_server_endpoint", JVal.str c.apiServerEndpoint)] ++
  omitemptyStr "load_balancer_ip" c.loadBalancerIP ++
  [("provider", JVal.str c.provider), ("status", JVal.str c.status),
   ("created_at", JVal.num c.createdAt), ("updated_at", JVal.num c.updatedAt)] ++
  (if c.nodes = [] then []
   else [("nodes", JVal.arr (c.nodes.map fun n => JVal.obj (nodeJSON n)))]) ++
  (if c.events = [] then []
   else [("events", JVal.arr (c.events.map fun e => JVal.obj (eventJSON e)))])

/-! ### History replay on WebSocket subscribe (part_004:172-235) -/

/-- The DB ordering `ORDER BY timestamp DESC` used by the replay query. -/
def byTimestampDesc (a b : Event) : Prop :=
  b.timestamp ≤ a.timestamp

instance : DecidableRel byTimestampDesc :=
  fun a b => inferInstanceAs (Decidable (b.timestamp ≤ a.timestamp))

/-- The history a new subscriber is sent (part_004:197-209): the query
`WHERE cluster_id = ? ORDER BY timestamp DESC LIMIT 50` over the
persisted events, written to the socket in reverse index order
(`for i := len(events)-1; i >= 0; i--`), i.e. oldest first. -/
def replayEvents (stored : List Event) (cid : Nat) : List Event :=
  (((stored.filter fun e => e.clusterID == cid).insertionSort byTimestampDesc).take 50).reverse

/-- `Interleave xs ys zs`: `zs` is an order-preserving merge of `xs` and
`ys`. -/
inductive Interleave : List Event → List Event → List Event → Prop
  | nil : Interleave [] [] []
  | left {xs ys zs} (x : Event) : Interleave xs ys zs → Interleave (x :: xs) ys (x :: zs)
  | right {xs ys zs} (y : Event) : Interleave xs ys zs → Interleave xs (y :: ys) (y :: zs)

/-- Model of what one subscriber of `HandleWebSocket` (part_004:172-235)
can observe.  The client is registered with the Hub first
(`Hub.register <- client`), then a separate goroutine writes the
replayed history to the connection while the Hub loop concurrently
writes live broadcasts to the same connection; with no synchronization
between the two writers, the observed sequence is an arbitrary
order-preserving interleaving of the replay sequence and the live
sequence. -/
def Delivered (stored : List Event) (cid : Nat) (live : List Event) (σ : List Event) : Prop :=
  Interleave (replayEvents stored cid) live σ

/-! ### Concrete fixtures used by the theorems -/

/-- A representative `kubeadm init` transcript: the worker join command
with its line continuation, and the certificate key on its own line. -/
def initOutput : String :=
  "Your Kubernetes control-plane has initialized successfully!\n\nkubeadm join 10.0.0.1:6443 --token abc \\\n    --discovery-token-ca-cert-hash sha256:xyz\n\n  --certificate-key KEY\n"

def cpHost : HostSpec :=
  { hostname := "cp1", address := "10.0.0.1", user := "u",
    sshKey := "", sshKeyPath := "/k", port := 22, role := "control-plane" }

def cpHost2 : HostSpec :=
  { hostname := "cp2", address := "10.0.0.3", user := "u",
    sshKey := "", sshKeyPath := "/k", port := 22, role := "control-plane" }

def workerHost : HostSpec :=
  { hostname := "w1", address := "10.0.0.2", user := "u",
    sshKey := "", sshKeyPath := "/k", port := 22, role := "worker" }

/-- A valid creation request: one control plane, one worker. -/
def reqOneWorker : CreateClusterRequest :=
  { name := "c1", k8sVersion := "1.28.0", podNetworkCIDR := "10.244.0.0/16",
    serviceCIDR := "10.96.0.0/12", cni := "calico", containerRuntime := "containerd",
    apiServerEndpoint := "", controlPlanes := [cpHost], workers := [workerHost] }

/-- A valid creation request: two control planes, one worker. -/
def reqHA : CreateClusterRequest :=
  { name := "c2", k8sVersion := "1.28.0", podNetworkCIDR := "10.244.0.0/16",
    serviceCIDR := "10.96.0.0/12", cni := "calico", containerRuntime := "containerd",
    apiServerEndpoint := "", controlPlanes := [cpHost, cpHost2], workers := [workerHost] }

/-- Every remote step succeeds. -/
def envAllOk : ProvisionEnv :=
  { provisionerErr := none, prepareErr := none, bootstrapErr := none, cniErr := none,
    joinCPErr := fun _ => none, joinWorkerErr := fun _ => none }

/-- Every remote step succeeds except the worker join. -/
def envWorkerJoinFails : ProvisionEnv :=
  { envAllOk with joinWorkerErr := fun _ => some "exit status 1" }

/-- Every remote step succeeds except `InstallCNI`. -/
def envCNIFails : ProvisionEnv :=
  { envAllOk with cniErr := some "apply failed" }

/-- A cluster-spec host as a user may submit it: empty user, hostname
and port, key supplied by path. -/
def rawHost : HostSpec :=
  { hostname := "", address := "10.0.0.1", user := "",
    sshKey := "", sshKeyPath := "/k", port := 0, role := "" }

/-- A cluster spec needing every default. -/
def rawSpec : ClusterSpec :=
  { name := "c1", controlPlanes := [rawHost], workers := [],
    k8sVersion := "", podNetworkCIDR := "", serviceCIDR := "",
    cni := "", containerRuntime := "", apiServerEndpoint := "" }

/-- `rawSpec` after `ClusterSpec.Validate`: cluster-level defaults are
filled in, the hosts are untouched. -/
def defaultedSpec : ClusterSpec :=
  { rawSpec with
    k8sVersion := "1.28.0", podNetworkCIDR := "10.244.0.0/16",
    serviceCIDR := "10.96.0.0/12", cni := "calico", containerRuntime := "containerd" }

/-- A host with neither inline key material nor a key file path. -/
def noKeyHost : HostSpec :=
  { hostname := "h", address := "10.0.0.9", user := "root",
    sshKey := "", sshKeyPath := "", port := 22, role := "" }

/-- `InstallCNI` outcome: `kubectl apply` fails. -/
def cniEnvApplyFails : CNIEnv :=
  { connectErr := none, applyErr := some "boom", applyOut := "", waitErr := none }

/-- `InstallCNI` outcome: the manifest applies, the readiness wait times
out. -/
def cniEnvWaitFails : CNIEnv :=
  { connectErr := none, applyErr := none, applyOut := "created", waitErr := some "timed out" }

/-- A persisted event used by the replay counterexample. -/
def histEvent : Event :=
  { id := 1, clusterID := 7, timestamp := 1, level := "info", host := "localhost",
    step := "prepare", message := "Preparing hosts", output := "", createdAt := 1 }

/-- A live event broadcast while the replay goroutine is still running. -/
def liveEvent : Event :=
  { id := 2, clusterID := 7, timestamp := 2, level := "info", host := "localhost",
    step := "complete", message := "Cluster provisioned successfully", output := "",
    createdAt := 2 }

/-- A concrete stored cluster record carrying secrets. -/
def sampleCluster : Cluster :=
  { id := 1, name := "c1", k8sVersion := "1.28.0",
    podNetworkCIDR := "10.244.0.0/16", serviceCIDR := "10.96.0.0/12",
    cni := "calico", containerRuntime := "containerd", apiServerEndpoint := "",
    loadBalancerIP := "", provider := "kubeadm", status := "ready",
    kubeconfig := some [97, 98], joinCommand := "kubeadm join 10.0.0.1:6443 --token abc",
    certificateKey := "KEY", createdAt := 10, updatedAt := 20, deletedAt := none,
    nodes := [], events := [] }

instance : IsTotal Event byTimestampDesc :=
  ⟨fun a b => Nat.le_total b.timestamp a.timestamp⟩

instance : IsTrans Event byTimestampDesc :=
  ⟨fun _ _ _ h1 h2 => Nat.le_trans h2 h1⟩

/-! ### Helper lemmas -/

theorem setIfEmpty_ne_empty (s d : String) (hd : d ≠ "") : setIfEmpty s d ≠ "" := by
  unfold setIfEmpty
  split
  · exact hd
  · assumption

theorem setIfEmpty_of_ne (s d : String) (h : s ≠ "") : setIfEmpty s d = s :=
  if_neg h

theorem setIfEmpty_idem (s d : String) (hd : d ≠ "") :
    setIfEmpty (setIfEmpty s d) d = setIfEmpty s d :=
  setIfEmpty_of_ne _ _ (setIfEmpty_ne_empty s d hd)

theorem applyDefaults_idem (cs : ClusterSpec) :
    applyDefaults (applyDefaults cs) = applyDefaults cs := by
  simp only [applyDefaults]
  rw [setIfEmpty_idem _ _ (by decide), setIfEmpty_idem _ _ (by decide),
      setIfEmpty_idem _ _ (by decide), setIfEmpty_idem _ _ (by decide),
      setIfEmpty_idem _ _ (by decide)]

theorem filter_isJobWrite_joinLoop (o : HostSpec → Option String) (msg failCtx : String)
    (l : List HostSpec) : (joinLoop o msg failCtx l).filter isJobWrite = [] := by
  induction l with
  | nil => rfl
  | cons h t ih =>
    cases ho : o h <;>
      simp [joinLoop, ho, List.filter_append, isJobWrite, ih, logError]

theorem filter_isJobWrite_provisionCluster (env : ProvisionEnv) (req : CreateClusterRequest) :
    (provisionCluster env req).filter isJobWrite = [] := by
  unfold provisionCluster
  repeat' split
  all_goals
    simp [isJobWrite, logError, List.filter_append, filter_isJobWrite_joinLoop]

theorem interleave_sublist_replay {xs ys zs : List Event} (h : Interleave xs ys zs) :
    List.Sublist xs zs := by
  induction h with
  | nil => exact List.Sublist.refl _
  | left x _ ih => exact List.Sublist.cons₂ x ih
  | right y _ ih => exact List.Sublist.cons y ih

/-! ### Claim theorems -/

/-- C1: evaluating the provisioning task at its failing input.  In a run
where every remote step succeeds except the single worker's join, the
task writes the status sequence `pending`, `provisioning`, `failed`,
`ready`: `logError` inside the non-fatal worker-join loop writes
`failed`, and the final write still sets `ready`, an edge outside the
state machine, contrary to the claimed monotonicity. -/
theorem c1_status_writes_failed_then_ready :
    statusWrites (requestTrace envWorkerJoinFails reqOneWorker) =
      ["pending", "provisioning", "failed", "ready"] := by
  decide

/-- C2 counterexample: on bootstrap output containing the line
`kubeadm join 10.0.0.1:6443 --token abc \` followed by the continuation
line `    --discovery-token-ca-cert-hash sha256:xyz`, the extractor does
not return the claimed string without the continuation marker — the
trailing backslash of the first line is kept. -/
theorem c2_join_command_counterexample :
    extractJoinCommand initOutput ≠
      "kubeadm join 10.0.0.1:6443 --token abc --discovery-token-ca-cert-hash sha256:xyz" := by
  decide

/-- C2 amended: on the representative bootstrap output,
`extractJoinCommand` returns the single-line command containing both
flags but retaining the first line's trailing continuation backslash,
and `extractCertificateKey` returns exactly the key following the
`--certificate-key` flag. -/
theorem c2_extractors_amended :
    extractJoinCommand initOutput =
      "kubeadm join 10.0.0.1:6443 --token abc \\ --discovery-token-ca-cert-hash sha256:xyz" ∧
    extractCertificateKey initOutput = some "KEY" := by
  decide

/-- C3 counterexample: in a fully successful run the cluster reaches
`ready`, yet the only Job write in the whole trace is the creation with
status `pending` and progress 0 — the Job is never marked `running` and
its progress never reaches 100. -/
theorem c3_job_counterexample :
    (requestTrace envAllOk reqOneWorker).filter isJobWrite = [Action.createJob "pending" 0] ∧
    Action.setStatus "ready" ∈ requestTrace envAllOk reqOneWorker := by
  decide

/-- C3 amended: for every environment and request, the only Job write a
run ever performs is the creation with status `pending` and progress 0
(none at all when the request is rejected); the provisioning task never
updates the Job, on success or on failure. -/
theorem c3_job_writes (env : ProvisionEnv) (req : CreateClusterRequest) :
    (requestTrace env req).filter isJobWrite =
      if req.name = "" ∨ req.controlPlanes = [] then []
      else [Action.createJob "pending" 0] := by
  unfold requestTrace
  split
  · rfl
  · simp [createRecords, List.filter_append, filter_isJobWrite_provisionCluster,
      isJobWrite, List.filter_map]

/-- C4 counterexample: in the run whose single worker join fails, no
`error`-level Event with step `join` is recorded at all — the error
event produced by `logError` carries step `error` and host `localhost`. -/
theorem c4_counterexample_no_error_join_event :
    (requestTrace envWorkerJoinFails reqOneWorker).filter
      (fun a => match a with
        | Action.event "error" _ "join" _ => true
        | _ => false) = [] := by
  decide

/-- C4 amended: a worker join failure is non-fatal — the run's final
status write is `ready` — and the failure is recorded as an
`error`-level Event with step `error` and host `localhost`; the worker's
address appears in the `info`-level `join` event. -/
theorem c4_worker_join_failure_nonfatal :
    (statusWrites (requestTrace envWorkerJoinFails reqOneWorker)).getLast? = some "ready" ∧
    Action.event "error" "localhost" "error" "Failed to join worker: exit status 1"
      ∈ requestTrace envWorkerJoinFails reqOneWorker ∧
    Action.event "info" "10.0.0.2" "join" "Joining worker"
      ∈ requestTrace envWorkerJoinFails reqOneWorker := by
  decide

/-- C5: `InstallCNI` returns an error when applying the manifest fails;
when the manifest applies and the readiness wait fails it returns
success, emitting a `warn` event and no `error` event; and the
orchestrator continues through the remaining control-plane join, worker
join, and the `ready` transition even when `InstallCNI` fails. -/
theorem c5_cni_error_policy :
    (∀ (env : CNIEnv) (cni url : String) (cp : HostSpec) (stderr : String),
        cniManifest cni = Except.ok url → env.connectErr = none → env.applyErr = some stderr →
        (installCNI env cni cp).2 = some ("failed to apply CNI manifest: " ++ stderr)) ∧
    (∀ (env : CNIEnv) (cni url : String) (cp : HostSpec) (w : String),
        cniManifest cni = Except.ok url → env.connectErr = none → env.applyErr = none →
        env.waitErr = some w →
        (installCNI env cni cp).2 = none ∧
        EmittedEvent.mk "warn" cp.address "install-cni" "CNI pods may not be fully ready yet"
          ∈ (installCNI env cni cp).1 ∧
        ∀ ev ∈ (installCNI env cni cp).1, ev.level ≠ "error") ∧
    provisionCluster envCNIFails reqHA =
      [Action.setStatus "provisioning",
       Action.event "info" "localhost" "prepare" "Preparing hosts",
       Action.event "info" "10.0.0.1" "bootstrap" "Bootstrapping control plane",
       Action.saveSecrets,
       Action.event "info" "10.0.0.1" "cni" "Installing CNI",
       Action.event "error" "localhost" "error" "Failed to install CNI: apply failed",
       Action.setStatus "failed",
       Action.event "info" "10.0.0.3" "join" "Joining control plane",
       Action.event "info" "10.0.0.2" "join" "Joining worker",
       Action.setStatus "ready",
       Action.event "info" "localhost" "complete" "Cluster provisioned successfully"] := by
  refine ⟨?_, ?_, by decide⟩
  · intro env cni url cp stderr hm hc ha
    simp [installCNI, hm, hc, ha]
  · intro env cni url cp w hm hc ha hw
    refine ⟨by simp [installCNI, hm, hc, ha, hw], by simp [installCNI, hm, hc, ha, hw], ?_⟩
    intro ev hev
    simp [installCNI, hm, hc, ha, hw] at hev
    rcases hev with h | h | h <;> subst h <;> simp

/-- C5 witness: the two quantified parts of `c5_cni_error_policy`
evaluated at concrete environments. -/
theorem c5_witness :
    (installCNI cniEnvApplyFails "calico" cpHost).2 = some "failed to apply CNI manifest: boom" ∧
    (installCNI cniEnvWaitFails "calico" cpHost).2 = none :=
  ⟨c5_cni_error_policy.1 cniEnvApplyFails "calico"
      "https://raw.githubusercontent.com/projectcalico/calico/v3.26.1/manifests/calico.yaml"
      cpHost "boom" rfl rfl rfl,
   (c5_cni_error_policy.2.1 cniEnvWaitFails "calico"
      "https://raw.githubusercontent.com/projectcalico/calico/v3.26.1/manifests/calico.yaml"
      cpHost "timed out" rfl rfl rfl rfl).1⟩

/-- C6: evaluating validation at its failing input.  `ClusterSpec.Validate`
on a spec whose single host has empty user, zero port and empty hostname
succeeds and fills the five cluster-level defaults, but leaves the host
exactly as submitted — the normalization that `HostSpec.Validate`
performs on its receiver (shown in the third conjunct) is applied to the
range-loop copy and discarded.  A spec with no control planes and a host
with no key material are rejected as claimed. -/
theorem c6_validate_at_failing_input :
    ClusterSpec.validate rawSpec = (defaultedSpec, none) ∧
    defaultedSpec.controlPlanes = [rawHost] ∧
    rawHost.user = "" ∧ rawHost.port = 0 ∧ rawHost.hostname = "" ∧
    HostSpec.validate rawHost =
      ({ rawHost with user := "root", port := 22, hostname := "10.0.0.1" }, none) ∧
    (ClusterSpec.validate { rawSpec with controlPlanes := [] }).2 =
      some "invalid spec: at least one control plane is required" ∧
    (HostSpec.validate noKeyHost).2 =
      some "invalid spec: SSH key or key path is required for host 10.0.0.9" := by
  decide

/-- C7: validation is idempotent — when `ClusterSpec.Validate` succeeds,
validating the already-validated spec succeeds and leaves it unchanged. -/
theorem c7_validate_idempotent {x y : ClusterSpec}
    (h : ClusterSpec.validate x = (y, none)) : ClusterSpec.validate y = (y, none) := by
  unfold ClusterSpec.validate at h
  by_cases hname : x.name = ""
  · rw [if_pos hname] at h
    exact absurd (congrArg Prod.snd h) (by simp)
  rw [if_neg hname] at h
  by_cases hcp : x.controlPlanes = []
  · rw [if_pos hcp] at h
    exact absurd (congrArg Prod.snd h) (by simp)
  rw [if_neg hcp] at h
  rcases hhosts : validateHosts ((applyDefaults x).controlPlanes ++ (applyDefaults x).workers)
    with _ | e
  · rw [hhosts] at h
    have hy : applyDefaults x = y := congrArg Prod.fst h
    subst hy
    have hname2 : ¬ (applyDefaults x).name = "" := hname
    have hcp2 : ¬ (applyDefaults x).controlPlanes = [] := hcp
    unfold ClusterSpec.validate
    rw [if_neg hname2, if_neg hcp2, applyDefaults_idem, hhosts]
  · rw [hhosts] at h
    exact absurd (congrArg Prod.snd h) (by simp)

/-- C7 witness: `c7_validate_idempotent` at the concrete spec `rawSpec`,
whose validation yields `defaultedSpec`. -/
theorem c7_witness : ClusterSpec.validate defaultedSpec = (defaultedSpec, none) :=
  @c7_validate_idempotent rawSpec defaultedSpec (by decide)

/-- C8: the serialized Cluster view is independent of the three secret
fields — two records differing only in `kubeconfig`, `join_command` and
`certificate_key` serialize identically — and no serialized view ever
contains one of those keys. -/
theorem c8_secrets_not_serialized :
    (∀ (c : Cluster) (k : Option (List Nat)) (j q : String),
        clusterJSON { c with kubeconfig := k, joinCommand := j, certificateKey := q } =
          clusterJSON c) ∧
    (∀ c : Cluster,
        "kubeconfig" ∉ (clusterJSON c).map Prod.fst ∧
        "join_command" ∉ (clusterJSON c).map Prod.fst ∧
        "certificate_key" ∉ (clusterJSON c).map Prod.fst) := by
  constructor
  · intro c k j q
    rfl
  · intro c
    by_cases h1 : c.loadBalancerIP = "" <;> by_cases h2 : c.nodes = [] <;>
      by_cases h3 : c.events = [] <;>
        simp [clusterJSON, omitemptyStr, h1, h2, h3]

/-- C8 witness: `c8_secrets_not_serialized` at a concrete stored record
carrying secrets. -/
theorem c8_witness :
    clusterJSON { sampleCluster with kubeconfig := none, joinCommand := "", certificateKey := "" } =
      clusterJSON sampleCluster ∧
    "kubeconfig" ∉ (clusterJSON sampleCluster).map Prod.fst :=
  ⟨c8_secrets_not_serialized.1 sampleCluster none "" "",
   (c8_secrets_not_serialized.2 sampleCluster).1⟩

/-- C9 counterexample: the delivery model admits an observation in which
the live event arrives before the replayed history event — the replay
goroutine is spawned after Hub registration and runs concurrently with
live broadcasts, so history is not guaranteed to complete before live
delivery begins. -/
theorem c9_live_before_history_possible :
    Delivered [histEvent] 7 [liveEvent] [liveEvent, histEvent] ∧
    [liveEvent, histEvent] ≠ replayEvents [histEvent] 7 ++ [liveEvent] := by
  constructor
  · show Interleave (replayEvents [histEvent] 7) [liveEvent] [liveEvent, histEvent]
    have h : replayEvents [histEvent] 7 = [histEvent] := by decide
    rw [h]
    exact Interleave.right _ (Interleave.left _ Interleave.nil)
  · decide

/-- C9 amended: the replayed history is sorted by ascending timestamp,
has at most 50 events, consists of persisted events of the requested
cluster, contains every stored event of that cluster except possibly
ones no newer than everything replayed (i.e. it is the most recent
suffix), and keeps its relative order inside every observable delivery;
but it is only interleaved with, not ordered before, live events. -/
theorem c9_replay_content_and_order :
    (∀ (stored : List Event) (cid : Nat),
        List.Sorted (fun a b : Event => a.timestamp ≤ b.timestamp) (replayEvents stored cid)) ∧
    (∀ (stored : List Event) (cid : Nat), (replayEvents stored cid).length ≤ 50) ∧
    (∀ (stored : List Event) (cid : Nat), ∀ e ∈ replayEvents stored cid,
        e ∈ stored ∧ e.clusterID = cid) ∧
    (∀ (stored : List Event) (cid : Nat), ∀ e ∈ stored, e.clusterID = cid →
        e ∈ replayEvents stored cid ∨
          ∀ x ∈ replayEvents stored cid, e.timestamp ≤ x.timestamp) ∧
    (∀ (stored live σ : List Event) (cid : Nat),
        Delivered stored cid live σ → List.Sublist (replayEvents stored cid) σ) := by
  have hsorted : ∀ (stored : List Event) (cid : Nat),
      List.Sorted byTimestampDesc
        ((stored.filter fun e => e.clusterID == cid).insertionSort byTimestampDesc) :=
    fun stored cid => List.sorted_insertionSort byTimestampDesc _
  refine ⟨?_, ?_, ?_, ?_, ?_⟩
  · intro stored cid
    exact List.pairwise_reverse.mpr
      ((hsorted stored cid).sublist (List.take_sublist 50 _))
  · intro stored cid
    unfold replayEvents
    rw [List.length_reverse, List.length_take]
    exact Nat.min_le_left _ _
  · intro stored cid e he
    unfold replayEvents at he
    rw [List.mem_reverse] at he
    have he2 : e ∈ (stored.filter fun x => x.clusterID == cid).insertionSort byTimestampDesc :=
      (List.take_sublist 50 _).mem he
    have he3 : e ∈ stored.filter fun x => x.clusterID == cid :=
      (List.perm_insertionSort byTimestampDesc _).mem_iff.mp he2
    rw [List.mem_filter] at he3
    exact ⟨he3.1, by simpa using he3.2⟩
  · intro stored cid e he hcid
    by_cases hm : e ∈ replayEvents stored cid
    · exact Or.inl hm
    refine Or.inr fun x hx => ?_
    have hef : e ∈ stored.filter fun y => y.clusterID == cid :=
      List.mem_filter.mpr ⟨he, by simpa using hcid⟩
    have hes : e ∈ (stored.filter fun y => y.clusterID == cid).insertionSort byTimestampDesc :=
      (List.perm_insertionSort byTimestampDesc _).mem_iff.mpr hef
    have hsplit :
        ((stored.filter fun y => y.clusterID == cid).insertionSort byTimestampDesc).take 50 ++
          ((stored.filter fun y => y.clusterID == cid).insertionSort byTimestampDesc).drop 50 =
          (stored.filter fun y => y.clusterID == cid).insertionSort byTimestampDesc :=
      List.take_append_drop 50 _
    have hps : List.Pairwise byTimestampDesc
        (((stored.filter fun y => y.clusterID == cid).insertionSort byTimestampDesc).take 50 ++
          ((stored.filter fun y => y.clusterID == cid).insertionSort byTimestampDesc).drop 50) := by
      rw [hsplit]
      exact hsorted stored cid
    have hcross := (List.pairwise_append.mp hps).2.2
    have hxt :
        x ∈ ((stored.filter fun y => y.clusterID == cid).insertionSort byTimestampDesc).take 50 := by
      unfold replayEvents at hx
      exact List.mem_reverse.mp hx
    have hed :
        e ∈ ((stored.filter fun y => y.clusterID == cid).insertionSort byTimestampDesc).drop 50 := by
      rw [← hsplit] at hes
      rcases List.mem_append.mp hes with h | h
      · exact absurd (by unfold replayEvents; exact List.mem_reverse.mpr h) hm
      · exact h
    exact hcross x hxt e hed
  · intro stored live σ cid h
    exact interleave_sublist_replay h

/-- C9 witness: the delivery-order part of `c9_replay_content_and_order`
at the concrete interleaving of the counterexample scenario. -/
theorem c9_witness :
    List.Sublist (replayEvents [histEvent] 7) [liveEvent, histEvent] :=
  c9_replay_content_and_order.2.2.2.2 [histEvent] [liveEvent] [liveEvent, histEvent] 7
    (show Interleave [histEvent] [liveEvent] [liveEvent, histEvent] from
      Interleave.right _ (Interleave.left _ Interleave.nil))

/-- C10: evaluating the extractor at its failing input.  On output whose
line contains `--certificate-key` with nothing after it, the Go code
reaches `strings.Fields(key)[0]` with an empty field list and panics
with an index-out-of-range error (modelled by `none`); on a line with a
value the extractor returns normally. -/
theorem c10_certificate_key_panic :
    extractCertificateKey "--certificate-key\n" = none ∧
    extractCertificateKey "ok\n--certificate-key FULLKEY\n" = some "FULLKEY" := by
  decide

end KubeForge
